import Mathlib

/-!
Verification of the transfer-orchestration and progress-tracking pipeline of a
Telegram-to-Wasabi file relay bot (single source file `main.py`).

The embedding is shallow:
* Python wall-clock instants (`time.time()` floats) become explicit `ℚ` arguments;
  the exact-rational model idealises IEEE doubles.  None of the verified
  statements depends on a float rounding tie.
* Fallible code (`_format_size` raising `IndexError`, the `/api/files` handler
  catching it) returns `Option`.
* The orchestrating coroutine `TelegramFileBot.handle_file_upload` is modelled
  as a pure function from an environment (the outcomes of its external calls)
  to the list of effects it performs, in order, together with the updated
  file registry.
* Python strings are Lean `String`s; where the code slices or compares strings
  (`upload_time[:10]`, sort keys) the model works on the underlying character
  lists, which carry the same lexicographic order as Python `str` comparison.
-/

namespace Wasabi

/-! ## Pure formatting helpers (from `ProgressTracker._format_size`,
`_format_time`, `_create_progress_bar` and the f-string number formats) -/

/-- Python `str` of a non-negative int; `Int` version handles the sign the way
`str` does. -/
def intToStr (n : ℤ) : String :=
  if n < 0 then "-" ++ Nat.repr n.natAbs else Nat.repr n.toNat

/-- Python `f"{n:02d}"`: zero-pad to two digits. -/
def pad2 (n : ℤ) : String :=
  if 0 ≤ n ∧ n < 10 then "0" ++ intToStr n else intToStr n

/-- Python `round()` / `.1f` rounding: round half to even, on exact rationals. -/
def roundHalfEven (q : ℚ) : ℤ :=
  let f := ⌊q⌋
  let r := q - (f : ℚ)
  if r < 1/2 then f
  else if (1/2 : ℚ) < r then f + 1
  else if f % 2 = 0 then f else f + 1

/-- Python `f"{x:.1f}"` on a non-negative value. -/
def formatFixed1 (q : ℚ) : String :=
  let n := roundHalfEven (q * 10)
  intToStr (n / 10) ++ "." ++ intToStr (n % 10)

/-- Python `f"{x:.2f}"` on a non-negative value. -/
def formatFixed2 (q : ℚ) : String :=
  let n := roundHalfEven (q * 100)
  intToStr (n / 100) ++ "." ++ pad2 (n % 100)

/-- `_format_time`: `MM:SS`, zero padded; negative durations render as the
placeholder (`inf`/`nan` cannot arise in `ℚ`).  `int(seconds // 60)` and
`int(seconds % 60)` are the integer floor quotient and remainder for
non-negative input. -/
def formatTime (seconds : ℚ) : String :=
  if seconds < 0 then "--:--"
  else
    let m : ℤ := ⌊seconds / 60⌋
    let s : ℤ := ⌊seconds⌋ - 60 * m
    pad2 m ++ ":" ++ pad2 s

/-- `_create_progress_bar`: 20 cells, `filled = int(percentage / 100 * length)`. -/
def createProgressBar (percentage : ℚ) (length : ℕ := 20) : String :=
  let filled : ℕ := (⌊percentage / 100 * (length : ℚ)⌋).toNat
  let bar := String.mk (List.replicate filled '█' ++ List.replicate (length - filled) '░')
  "[" ++ bar ++ "] " ++ formatFixed1 percentage ++ "%"

/-- `size_names = ["B", "KB", "MB", "GB"]`. -/
def size_names : List String := ["B", "KB", "MB", "GB"]

/-- Python `repr` of `round(x, 2)`: up to two decimals, trailing zero dropped
except that at least one decimal digit is kept (`1.0`, `1.5`, `1.25`, `1.05`). -/
def formatRound2 (q : ℚ) : String :=
  let n : ℤ := roundHalfEven (q * 100)
  let ip : ℤ := n / 100
  let fr : ℤ := n % 100
  if fr = 0 then intToStr ip ++ ".0"
  else if fr % 10 = 0 then intToStr ip ++ "." ++ intToStr (fr / 10)
  else intToStr ip ++ "." ++ pad2 fr

/-- `_format_size` (duplicated verbatim in `ProgressTracker`, the inner
`DownloadProgress`, `TelegramFileBot._format_file_size` and
`WebServer._format_file_size`): `i = int(math.floor(math.log(size_bytes, 1024)))`,
which agrees with `Nat.log 1024` on every positive input (checked against IEEE
doubles at the 1024-power boundaries), then `size_names[i]`.  `none` models the
`IndexError` raised when `i` is past the end of the four-entry unit table. -/
def formatSize (size_bytes : ℕ) : Option String :=
  if size_bytes = 0 then some "0 B"
  else
    match size_names.get? (Nat.log 1024 size_bytes) with
    | some unit =>
      some (formatRound2 ((size_bytes : ℚ) / ((1024 : ℚ) ^ Nat.log 1024 size_bytes))
        ++ " " ++ unit)
    | none => none

/-! ## Progress rendering (upload leg `ProgressTracker.__call__`,
download leg `DownloadProgress.update`) -/

/-- The varying parts of one rendered `progress_text` (the surrounding banner
lines are constant).  `size_part` is `none` when `_format_size` would raise. -/
structure Rendered where
  progress_bar : String
  percent : String
  size_part : Option String
  speed : String
  eta : String
deriving DecidableEq

/-- The body of `ProgressTracker.__call__` that builds `progress_text`, given
the accumulated byte count and the current instant. -/
def uploadRender (total_size bytes : ℕ) (now start : ℚ) : Rendered :=
  let percentage : ℚ := ((bytes : ℚ) / (total_size : ℚ)) * 100
  let elapsed : ℚ := now - start
  let speedEta : String × String :=
    if 0 < elapsed then
      let speed_bps : ℚ := (bytes : ℚ) / elapsed
      let speed_mbps := speed_bps / (1024 * 1024)
      if 0 < bytes then
        (formatFixed2 speed_mbps, formatTime (((total_size : ℚ) - (bytes : ℚ)) / speed_bps))
      else
        (formatFixed2 speed_mbps, "--:--")
    else
      (formatFixed2 0, "--:--")
  { progress_bar := createProgressBar percentage
    percent := formatFixed1 percentage
    size_part := do
      let a ← formatSize bytes
      let b ← formatSize total_size
      pure (a ++ " / " ++ b)
    speed := speedEta.1
    eta := speedEta.2 }

/-- State of a `ProgressTracker` (upload leg).  `last_update_time` starts at
`0`, as in `__init__`. -/
structure ProgressTracker where
  total_size : ℕ
  update_interval : ℚ
  bytes_transferred : ℕ
  last_update_time : ℚ
  start_time : ℚ
  current_progress : Option Rendered
deriving DecidableEq

/-- `ProgressTracker.__init__(total_size, update_interval)` at instant `start`. -/
def ProgressTracker.init (total : ℕ) (interval : ℚ) (start : ℚ) : ProgressTracker :=
  { total_size := total
    update_interval := interval
    bytes_transferred := 0
    last_update_time := 0
    start_time := start
    current_progress := none }

/-- `ProgressTracker.__call__(bytes_amount)` at instant `now`: accumulate, and
render when `current_time - last_update_time > update_interval` (strict) or
`bytes_transferred >= total_size`. -/
def ProgressTracker.call (s : ProgressTracker) (now : ℚ) (bytes_amount : ℕ) :
    ProgressTracker :=
  let bt := s.bytes_transferred + bytes_amount
  if s.update_interval < now - s.last_update_time ∨ s.total_size ≤ bt then
    { s with
        bytes_transferred := bt
        current_progress := some (uploadRender s.total_size bt now s.start_time)
        last_update_time := now }
  else
    { s with bytes_transferred := bt }

/-- A sequence of progress callbacks `(instant, delta)` fed to a tracker. -/
def runCallbacks (s : ProgressTracker) (calls : List (ℚ × ℕ)) : ProgressTracker :=
  calls.foldl (fun t c => t.call c.1 c.2) s

/-- State of the inner `DownloadProgress` class of `_turbo_download_media`.
`published` is the text of the last (best-effort) status edit. -/
structure DownloadProgress where
  total_size : ℕ
  downloaded : ℕ
  start_time : ℚ
  last_update : ℚ
  published : Option Rendered
deriving DecidableEq

/-- The body of `DownloadProgress.update` that builds `progress_text`.  Note the
difference from the upload leg: when the speed is zero the ETA is the formatted
value `0`, not the placeholder. -/
def downloadRender (total current : ℕ) (now start : ℚ) : Rendered :=
  let percentage : ℚ := ((current : ℚ) / (total : ℚ)) * 100
  let elapsed : ℚ := now - start
  let speedEta : String × String :=
    if 0 < elapsed then
      let speed_bps : ℚ := (current : ℚ) / elapsed
      let eta_seconds : ℚ :=
        if 0 < speed_bps then ((total : ℚ) - (current : ℚ)) / speed_bps else 0
      (formatFixed2 (speed_bps / (1024 * 1024)), formatTime eta_seconds)
    else
      (formatFixed2 0, "--:--")
  { progress_bar := createProgressBar percentage
    percent := formatFixed1 percentage
    size_part := do
      let a ← formatSize current
      let b ← formatSize total
      pure (a ++ " / " ++ b)
    speed := speedEta.1
    eta := speedEta.2 }

/-- `DownloadProgress.update(current, total)` at instant `now`: store the
absolute count, and publish when `current_time - last_update > 1.5` (strict,
hard-coded interval). -/
def DownloadProgress.update (s : DownloadProgress) (now : ℚ) (current total : ℕ) :
    DownloadProgress :=
  let s' := { s with downloaded := current }
  if (3/2 : ℚ) < now - s'.last_update then
    { s' with
        published := some (downloadRender total current now s'.start_time)
        last_update := now }
  else s'

/-! ## File registry (`self.uploaded_files`, a Python `dict` in insertion
order) and the orchestrator `TelegramFileBot.handle_file_upload` -/

/-- One value of the `uploaded_files` dict (field names follow the dict keys). -/
structure TransferRecord where
  original_name : String
  object_key : String
  download_url : String
  file_size : ℕ
  upload_time : String
  user_id : ℕ
deriving DecidableEq

/-- The registry: a Python dict as an association list in insertion order. -/
abbrev Registry := List (String × TransferRecord)

/-- Python `d[k] = v` on an insertion-ordered dict: overwrite in place if the
key exists (keeping its position), else append.  This is the only registry
write the source performs. -/
def dictAssign (reg : Registry) (k : String) (v : TransferRecord) : Registry :=
  if (List.any reg fun p => p.1 == k) then
    List.map (fun p => if p.1 == k then (k, v) else p) reg
  else
    List.append reg [(k, v)]

/-- Python `d[k]` / `k in d`: first (unique) binding of `k`, if any.  This is
how `/download` and `/stream/` read the registry. -/
def dictGet (reg : Registry) (k : String) : Option TransferRecord :=
  match reg with
  | [] => none
  | p :: tl => if p.1 == k then some p.2 else dictGet tl k

/-- Observable effects of one `handle_file_upload` invocation, in program
order.  `acquire` is the `async with self.throttler` admission, `reply` a
user-visible message send or edit, `downloadCall`/`uploadCall` the two transfer
legs, `registryPut` the dict assignment, `presignCall` the streaming-link
request, `removeStaging` the `os.remove` of the local staging file. -/
inductive BotEvent where
  | acquire
  | reply (text : String)
  | downloadCall
  | uploadCall
  | registryPut (file_id : String)
  | presignCall
  | removeStaging
deriving DecidableEq

/-- The fields of the inbound media object the handler reads.  `file_name` is
`none` when the attribute is absent (photos), matching the `getattr` default. -/
structure FileInfo where
  file_size : ℕ
  file_name : Option String
deriving DecidableEq

/-- Outcomes of the external calls made during one invocation.
`download_ok = false` models an exception raised before the upload finished
(the `except` branch); `upload_url = none` models `WasabiStorage.upload_file`
returning `None` after a `ClientError`. -/
structure UploadEnv where
  file_info : Option FileInfo
  download_ok : Bool
  upload_url : Option String
  file_id : String
  user_id : ℕ
  now_iso : String
  err_text : String
deriving DecidableEq

/-- The 4 GB limit: `4 * 1024 * 1024 * 1024`. -/
def maxFileSize : ℕ := 4 * 1024 * 1024 * 1024

/-- `original_name = getattr(file_info, 'file_name', f"file_{file_id}")`. -/
def originalName (env : UploadEnv) (fi : FileInfo) : String :=
  fi.file_name.getD ("file_" ++ env.file_id)

/-- `object_key = f"files/{user_id}/{file_id}_{original_name}"`. -/
def objectKey (env : UploadEnv) (fi : FileInfo) : String :=
  "files/" ++ Nat.repr env.user_id ++ "/" ++ env.file_id ++ "_" ++ originalName env fi

/-- The dict literal stored into `uploaded_files` on success. -/
def mkRecord (env : UploadEnv) (fi : FileInfo) (url : String) : TransferRecord :=
  { original_name := originalName env fi
    object_key := objectKey env fi
    download_url := url
    file_size := fi.file_size
    upload_time := env.now_iso
    user_id := env.user_id }

/-- `TelegramFileBot.handle_file_upload`: the whole body runs inside
`async with self.throttler`, so every invocation starts with an `acquire`;
the unsupported-type and size-limit rejections return from within that block.
On success the registry write happens immediately after the upload call
returns a URL, before the presign request, the final success edit and the
staging-file removal; on upload failure only the failure edit happens (no
`os.remove`); on an exception only the failure reply happens. -/
def handle_file_upload (env : UploadEnv) (reg : Registry) :
    List BotEvent × Registry :=
  match env.file_info with
  | none => ([.acquire, .reply "❌ Unsupported file type."], reg)
  | some fi =>
    if maxFileSize < fi.file_size then
      ([.acquire, .reply "❌ File too large! Maximum size is 4GB."], reg)
    else if env.download_ok then
      match env.upload_url with
      | some url =>
        ([.acquire, .reply "turbo download initiated", .downloadCall,
          .reply "turbo download complete", .uploadCall,
          .registryPut env.file_id, .presignCall, .reply "turbo upload complete",
          .removeStaging],
         dictAssign reg env.file_id (mkRecord env fi url))
      | none =>
        ([.acquire, .reply "turbo download initiated", .downloadCall,
          .reply "turbo download complete", .uploadCall,
          .reply "❌ Upload failed. Please try again."],
         reg)
    else
      ([.acquire, .reply "turbo download initiated", .downloadCall,
        .reply ("❌ Upload failed: " ++ env.err_text)],
       reg)

/-! ## Web surface: `WebServer.api_files` (`GET /api/files`) -/

/-- One JSON entry of the `files` array. -/
structure ApiFile where
  id : String
  name : String
  size : String
  date : String
  streaming_url : String
deriving DecidableEq

/-- `date = file_info['upload_time'][:10]` — the first ten characters. -/
def dateOf (upload_time : String) : String :=
  String.mk (upload_time.data.take 10)

/-- `GET /api/files`: build an entry per record in dict (insertion) order, sort
by the `date` string descending with a stable sort (`list.sort(key=..., reverse=True)`),
and keep the first 20.  `none` models the `except` branch (error JSON), reached
when `_format_file_size` raises.  String comparison is Python's lexicographic
order on the characters, here taken on the underlying character lists. -/
def api_files (reg : Registry) : Option (List ApiFile) := do
  let files ← reg.mapM fun p => do
    let s ← formatSize p.2.file_size
    pure { id := p.1
           name := p.2.original_name
           size := s
           date := dateOf p.2.upload_time
           streaming_url := p.2.download_url : ApiFile }
  pure ((files.insertionSort fun a b => b.date.data ≤ a.date.data).take 20)

/-! ## Concrete inputs used to exercise the definitions -/

/-- An inbound file of 5 GiB — above the 4 GiB policy maximum. -/
def envOversize : UploadEnv :=
  { file_info := some { file_size := 5 * 1024 * 1024 * 1024, file_name := some "big.bin" }
    download_ok := true
    upload_url := some "https://s3.r.wasabisys.com/b/k"
    file_id := "f1"
    user_id := 7
    now_iso := "2024-01-01T00:00:00"
    err_text := "" }

/-- A 100-byte file whose download succeeds and whose upload fails
(`upload_file` returns `None`). -/
def envUploadFail : UploadEnv :=
  { file_info := some { file_size := 100, file_name := some "a.bin" }
    download_ok := true
    upload_url := none
    file_id := "f2"
    user_id := 7
    now_iso := "2024-01-01T00:00:00"
    err_text := "" }

/-- A 100-byte file whose download and upload both succeed. -/
def envSuccess : UploadEnv :=
  { file_info := some { file_size := 100, file_name := some "a.bin" }
    download_ok := true
    upload_url := some "https://s3.r.wasabisys.com/b/k2"
    file_id := "f3"
    user_id := 7
    now_iso := "2024-01-01T00:00:00"
    err_text := "" }

/-- Registry record created at midnight on 2024-01-01 (sizes are `0` so the
size column renders through the zero branch of `_format_size`). -/
def recMidnight : TransferRecord :=
  { original_name := "first.bin"
    object_key := "k1"
    download_url := "u1"
    file_size := 0
    upload_time := "2024-01-01T00:00:00"
    user_id := 1 }

/-- Registry record created five hours later on the same day. -/
def recLater : TransferRecord :=
  { original_name := "second.bin"
    object_key := "k2"
    download_url := "u2"
    file_size := 0
    upload_time := "2024-01-01T05:00:00"
    user_id := 1 }

/-- Two records of the same calendar day, inserted in creation order. -/
def regSameDay : Registry := [("id1", recMidnight), ("id2", recLater)]

/-- A one-record registry. -/
def regOne : Registry := [("id1", recMidnight)]

/-! ## C1 — size guard versus the rate limiter -/

/-- C1 counterexample: for a declared size of 5 GiB the handler does reply with
the size-limit error and performs no registry write, but the rejection happens
inside the `async with self.throttler` block, so exactly one rate-limiter
acquisition occurs — not zero as the claim states. -/
theorem C1_counterexample :
    (handle_file_upload envOversize []).1.count .acquire = 1
    ∧ BotEvent.reply "❌ File too large! Maximum size is 4GB."
        ∈ (handle_file_upload envOversize []).1
    ∧ (handle_file_upload envOversize []).2 = [] := by
  decide

/-- C1 (amended): an inbound file whose declared size exceeds the 4 GiB maximum
is rejected immediately with the size-limit error, with zero registry writes and
no download, upload, presign or staging activity — but the rejection happens
after acquiring the rate limiter (the whole handler body runs inside the
throttler context), so exactly one acquisition occurs. -/
theorem size_guard_rejects_inside_limiter (env : UploadEnv) (reg : Registry)
    (fi : FileInfo) (hfi : env.file_info = some fi)
    (hsize : maxFileSize < fi.file_size) :
    handle_file_upload env reg =
      ([.acquire, .reply "❌ File too large! Maximum size is 4GB."], reg) := by
  unfold handle_file_upload
  rw [hfi]
  simp [hsize]

/-- C1 witness: the amended statement at the concrete 5 GiB input. -/
theorem size_guard_rejects_inside_limiter_witness :
    handle_file_upload envOversize [] =
      ([.acquire, .reply "❌ File too large! Maximum size is 4GB."], []) :=
  size_guard_rejects_inside_limiter envOversize []
    { file_size := 5 * 1024 * 1024 * 1024, file_name := some "big.bin" }
    rfl (by decide)

/-! ## C2 — staging-file cleanup -/

/-- C2 counterexample: with a successful download and a failed upload, the
failure text is published and the registry is untouched, but `os.remove` is
never reached (the cleanup sits only in the success branch), so the staging
file written by the download leg is not removed. -/
theorem C2_counterexample :
    BotEvent.downloadCall ∈ (handle_file_upload envUploadFail []).1
    ∧ BotEvent.reply "❌ Upload failed. Please try again."
        ∈ (handle_file_upload envUploadFail []).1
    ∧ BotEvent.removeStaging ∉ (handle_file_upload envUploadFail []).1
    ∧ (handle_file_upload envUploadFail []).2 = [] := by
  decide

/-- C2 (amended): the staging file is removed only on the success path.  On
upload failure the failure text is published and no registry write occurs, as
the claim says, but the staging file is NOT removed. -/
theorem upload_failure_leaks_staging (env : UploadEnv) (reg : Registry)
    (fi : FileInfo) (hfi : env.file_info = some fi)
    (hsize : ¬ maxFileSize < fi.file_size)
    (hdl : env.download_ok = true) (hup : env.upload_url = none) :
    BotEvent.reply "❌ Upload failed. Please try again."
        ∈ (handle_file_upload env reg).1
    ∧ BotEvent.removeStaging ∉ (handle_file_upload env reg).1
    ∧ (handle_file_upload env reg).2 = reg := by
  unfold handle_file_upload
  rw [hfi]
  simp [hsize, hdl, hup]

/-- C2 witness: the amended statement at the concrete upload-failure input. -/
theorem upload_failure_leaks_staging_witness :
    BotEvent.reply "❌ Upload failed. Please try again."
        ∈ (handle_file_upload envUploadFail []).1
    ∧ BotEvent.removeStaging ∉ (handle_file_upload envUploadFail []).1
    ∧ (handle_file_upload envUploadFail []).2 = [] :=
  upload_failure_leaks_staging envUploadFail []
    { file_size := 100, file_name := some "a.bin" }
    rfl (by decide) rfl rfl

/-! ## C3 — registry visibility -/

/-- C3: a registry change, or any `registryPut` effect, can only arise when the
download leg succeeded and the upload call returned a download URL, and the put
is sequenced strictly after the upload call (no put precedes it).
Contrapositively, every invocation ending in a download or upload failure
leaves the registry unchanged. -/
theorem registry_write_only_after_upload_success (env : UploadEnv)
    (reg : Registry)
    (h : (handle_file_upload env reg).2 ≠ reg
      ∨ ∃ i, BotEvent.registryPut i ∈ (handle_file_upload env reg).1) :
    ∃ url, env.upload_url = some url ∧ env.download_ok = true
      ∧ ∃ l1 l2, (handle_file_upload env reg).1 = l1 ++ BotEvent.uploadCall :: l2
        ∧ BotEvent.registryPut env.file_id ∈ l2
        ∧ ∀ i, BotEvent.registryPut i ∉ l1 := by
  rcases hfi : env.file_info with _ | fi
  · exfalso
    unfold handle_file_upload at h
    rw [hfi] at h
    simp at h
  by_cases hsize : maxFileSize < fi.file_size
  · exfalso
    unfold handle_file_upload at h
    rw [hfi] at h
    simp [hsize] at h
  cases hdl : env.download_ok with
  | false =>
    exfalso
    unfold handle_file_upload at h
    rw [hfi] at h
    simp [hsize, hdl] at h
  | true =>
    rcases hup : env.upload_url with _ | url
    · exfalso
      unfold handle_file_upload at h
      rw [hfi] at h
      simp [hsize, hdl, hup] at h
    · refine ⟨url, rfl, rfl, ?_⟩
      refine ⟨[.acquire, .reply "turbo download initiated", .downloadCall,
               .reply "turbo download complete"],
              [.registryPut env.file_id, .presignCall,
               .reply "turbo upload complete", .removeStaging], ?_, ?_, ?_⟩
      · unfold handle_file_upload
        rw [hfi]
        simp [hsize, hdl, hup]
      · simp
      · intro i
        simp

/-- C3 witness: the theorem applied at the concrete success-path input. -/
theorem registry_write_only_after_upload_success_witness :
    ∃ url, envSuccess.upload_url = some url ∧ envSuccess.download_ok = true
      ∧ ∃ l1 l2, (handle_file_upload envSuccess []).1
            = l1 ++ BotEvent.uploadCall :: l2
        ∧ BotEvent.registryPut envSuccess.file_id ∈ l2
        ∧ ∀ i, BotEvent.registryPut i ∉ l1 :=
  registry_write_only_after_upload_success envSuccess []
    (Or.inr ⟨"f3", by decide⟩)

/-! ## C8 — registry insertion semantics -/

/-- `dictGet` through the element-wise overwrite map, when the key is present. -/
theorem dictGet_map_assign_self (k : String) (v : TransferRecord) :
    ∀ reg : Registry, (List.any reg fun p => p.1 == k) = true →
      dictGet (List.map (fun p => if p.1 == k then (k, v) else p) reg) k = some v := by
  intro reg h
  induction reg with
  | nil => simp at h
  | cons hd tl ih =>
    cases hbk : (hd.1 == k) with
    | true => simp [dictGet, hbk]
    | false =>
      have htl : (List.any tl fun p => p.1 == k) = true := by
        simpa [hbk] using h
      simp only [List.map_cons, hbk, Bool.false_eq_true, if_false, dictGet]
      exact ih htl

/-- `dictGet` at a different key is unchanged by the overwrite map. -/
theorem dictGet_map_assign_other (k k' : String) (v : TransferRecord)
    (hne : k' ≠ k) :
    ∀ reg : Registry,
      dictGet (List.map (fun p => if p.1 == k then (k, v) else p) reg) k'
        = dictGet reg k' := by
  intro reg
  induction reg with
  | nil => rfl
  | cons hd tl ih =>
    cases hbk : (hd.1 == k) with
    | true =>
      have h1 : hd.1 = k := by simpa using hbk
      have h2 : (k == k') = false := beq_eq_false_iff_ne.mpr (Ne.symm hne)
      have h3 : (hd.1 == k') = false := by rw [h1]; exact h2
      simp only [List.map_cons, hbk, if_true, dictGet, h2, h3,
        Bool.false_eq_true, if_false]
      exact ih
    | false =>
      simp only [List.map_cons, hbk, Bool.false_eq_true, if_false, dictGet]
      cases hbk' : (hd.1 == k') with
      | true => simp [hbk']
      | false =>
        simp only [hbk', Bool.false_eq_true, if_false]
        exact ih

/-- `dictGet` at a different key is unchanged by an append at the end. -/
theorem dictGet_append_other (k k' : String) (v : TransferRecord)
    (hne : k' ≠ k) :
    ∀ reg : Registry, dictGet (reg ++ [(k, v)]) k' = dictGet reg k' := by
  intro reg
  induction reg with
  | nil =>
    have h2 : (k == k') = false := beq_eq_false_iff_ne.mpr (Ne.symm hne)
    simp [dictGet, h2]
  | cons hd tl ih =>
    cases hbk' : (hd.1 == k') with
    | true => simp [dictGet, hbk']
    | false =>
      simp only [List.cons_append, dictGet, hbk', Bool.false_eq_true, if_false]
      exact ih

/-- `dictGet` finds a freshly appended binding when the key was absent. -/
theorem dictGet_append_self (k : String) (v : TransferRecord) :
    ∀ reg : Registry, (List.any reg fun p => p.1 == k) = false →
      dictGet (reg ++ [(k, v)]) k = some v := by
  intro reg h
  induction reg with
  | nil => simp [dictGet]
  | cons hd tl ih =>
    cases hbk : (hd.1 == k) with
    | true => rw [List.any_cons, hbk] at h; simp at h
    | false =>
      have htl : (List.any tl fun p => p.1 == k) = false := by
        simpa [hbk] using h
      simp only [List.cons_append, dictGet, hbk, Bool.false_eq_true, if_false]
      exact ih htl

/-- C8 counterexample: inserting a record under an id that is already present
does not fail — `uploaded_files[file_id] = {...}` is a plain dict assignment
that silently replaces the existing record (here `recMidnight`, which is lost)
with the new one.  There is no `DuplicateId` outcome anywhere in the code. -/
theorem C8_counterexample :
    dictAssign regOne "id1" recLater = [("id1", recLater)]
    ∧ recMidnight ≠ recLater
    ∧ dictGet (dictAssign regOne "id1" recLater) "id1" = some recLater := by
  decide

/-- C8 (amended): the registry write has plain assignment semantics: after
`dictAssign reg k v` the key `k` maps to `v` — silently overwriting any record
previously stored under `k` — and every other key is unaffected.  No duplicate
check is performed and no error is ever raised. -/
theorem dict_put_silently_overwrites (reg : Registry) (k : String)
    (v : TransferRecord) :
    dictGet (dictAssign reg k v) k = some v
    ∧ ∀ k', k' ≠ k → dictGet (dictAssign reg k v) k' = dictGet reg k' := by
  unfold dictAssign
  cases h : (List.any reg fun p => p.1 == k) with
  | true =>
    simp only [if_pos]
    exact ⟨dictGet_map_assign_self k v reg h,
           fun k' hne => dictGet_map_assign_other k k' v hne reg⟩
  | false =>
    simp only [if_neg, Bool.false_eq_true, not_false_iff]
    exact ⟨dictGet_append_self k v reg h,
           fun k' hne => dictGet_append_other k k' v hne reg⟩

/-- C8 witness: the amended statement at a concrete duplicate insertion. -/
theorem dict_put_silently_overwrites_witness :
    dictGet (dictAssign regOne "id1" recLater) "id1" = some recLater
    ∧ dictGet (dictAssign regOne "id1" recLater) "other" = dictGet regOne "other" :=
  ⟨(dict_put_silently_overwrites regOne "id1" recLater).1,
   (dict_put_silently_overwrites regOne "id1" recLater).2 "other" (by decide)⟩

/-! ## C10 — the size formatter's domain -/

/-- C10: `_format_size` returns `"0 B"` for zero and is total exactly on sizes
below `1024 ^ 4` (1 TiB): there the unit index `int(math.floor(math.log(n, 1024)))`
stays within the four-entry table `B/KB/MB/GB`, while for `n ≥ 1024 ^ 4` the
index is at least 4 and the lookup raises (`none`).  The 4 GiB admission
maximum is below 1 TiB, so every size formatted in the transfer pipeline is in
the safe range and the raising branch is unreachable there. -/
theorem format_size_total_below_1TiB :
    formatSize 0 = some "0 B"
    ∧ (∀ n, (formatSize n).isSome ↔ n < 1024 ^ 4)
    ∧ maxFileSize < 1024 ^ 4 := by
  refine ⟨rfl, ?_, by norm_num [maxFileSize]⟩
  intro n
  by_cases h0 : n = 0
  · subst h0
    simp only [formatSize, if_pos rfl, Option.isSome_some, true_iff]
    norm_num
  · have hlog : Nat.log 1024 n < 4 ↔ n < 1024 ^ 4 := by
      rw [← not_le, ← not_le, not_iff_not]
      exact (Nat.pow_le_iff_le_log (by norm_num) h0).symm
    unfold formatSize
    rw [if_neg h0]
    rcases hg : size_names.get? (Nat.log 1024 n) with _ | u
    · have hge : (4 : ℕ) ≤ Nat.log 1024 n := by
        simpa [size_names] using List.get?_eq_none.mp hg
      simp only [Option.isSome_none, Bool.false_eq_true, false_iff, not_lt]
      exact not_lt.mp fun hn => absurd (hlog.mpr hn) (not_lt.mpr hge)
    · have hlt : Nat.log 1024 n < 4 := by
        by_contra hge
        rw [List.get?_eq_none.mpr (by simpa [size_names] using not_lt.mp hge)] at hg
        exact Option.noConfusion hg
      simp only [Option.isSome_some, true_iff]
      exact hlog.mp hlt

/-! ## C9 — `/api/files` ordering -/

/-- C9 counterexample: two records created on the same day, five hours apart
and inserted in creation order.  The sort key is only `upload_time[:10]` (the
calendar day), the keys tie, and the stable sort keeps insertion order — so the
earlier-created record `id1` precedes the later-created record `id2` in the
response, contradicting the claimed strict creation-time-descending order. -/
theorem C9_counterexample :
    (api_files regSameDay).map (fun l => l.map ApiFile.id) = some ["id1", "id2"]
    ∧ recMidnight.upload_time.data < recLater.upload_time.data := by
  decide

/-- C9 (amended): the `/api/files` response (when the handler does not fall
into its `except` branch) contains at most 20 entries and is sorted descending
by the `date` field — the calendar-day prefix `upload_time[:10]` — not by full
creation time: records sharing a day keep insertion (creation) order, ascending,
as the counterexample shows. -/
theorem api_files_sorted_by_day (reg : Registry) (out : List ApiFile)
    (h : api_files reg = some out) :
    out.length ≤ 20 ∧ out.Pairwise (fun a b => b.date.data ≤ a.date.data) := by
  unfold api_files at h
  rcases hm : reg.mapM (fun p => do
      let s ← formatSize p.2.file_size
      pure { id := p.1
             name := p.2.original_name
             size := s
             date := dateOf p.2.upload_time
             streaming_url := p.2.download_url : ApiFile }) with _ | files
  · rw [hm] at h
    exact Option.noConfusion h
  · rw [hm] at h
    simp only [Option.bind_eq_bind, Option.some_bind, Option.pure_def,
      Option.some_inj] at h
    subst h
    constructor
    · exact (List.length_take_le _ _)
    · refine List.Pairwise.sublist (List.take_sublist _ _) ?_
      haveI ht : IsTotal ApiFile (fun a b => b.date.data ≤ a.date.data) :=
        ⟨fun a b => le_total b.date.data a.date.data⟩
      haveI htr : IsTrans ApiFile (fun a b => b.date.data ≤ a.date.data) :=
        ⟨fun _ _ _ hab hbc => le_trans hbc hab⟩
      exact List.sorted_insertionSort (fun a b => b.date.data ≤ a.date.data) files

/-- C9 witness: the amended statement at a concrete one-record registry. -/
theorem api_files_sorted_by_day_witness :
    ([⟨"id1", "first.bin", "0 B", "2024-01-01", "u1"⟩] : List ApiFile).length ≤ 20
    ∧ ([⟨"id1", "first.bin", "0 B", "2024-01-01", "u1"⟩] : List ApiFile).Pairwise
        (fun a b => b.date.data ≤ a.date.data) :=
  api_files_sorted_by_day regOne [⟨"id1", "first.bin", "0 B", "2024-01-01", "u1"⟩]
    (by decide)

/-! ## ProgressTracker lemmas (shared by C4, C5, C7) -/

/-- Each callback adds its delta to the accumulator, rendering or not. -/
theorem call_bytes (s : ProgressTracker) (now : ℚ) (d : ℕ) :
    (s.call now d).bytes_transferred = s.bytes_transferred + d := by
  unfold ProgressTracker.call
  dsimp only
  split <;> rfl

/-- A callback never changes `total_size`. -/
theorem call_total (s : ProgressTracker) (now : ℚ) (d : ℕ) :
    (s.call now d).total_size = s.total_size := by
  unfold ProgressTracker.call
  dsimp only
  split <;> rfl

/-- A callback never changes `start_time`. -/
theorem call_start (s : ProgressTracker) (now : ℚ) (d : ℕ) :
    (s.call now d).start_time = s.start_time := by
  unfold ProgressTracker.call
  dsimp only
  split <;> rfl

/-- `__call__` renders (storing a fresh status and moving `last_update_time` to
`now`) exactly when `now - last_update_time > update_interval` (strictly) or the
accumulated bytes reach `total_size`; otherwise both are left untouched. -/
theorem call_spec (s : ProgressTracker) (now : ℚ) (d : ℕ) :
    ((s.call now d).last_update_time, (s.call now d).current_progress) =
      if s.update_interval < now - s.last_update_time
          ∨ s.total_size ≤ s.bytes_transferred + d
      then (now, some (uploadRender s.total_size (s.bytes_transferred + d) now
              s.start_time))
      else (s.last_update_time, s.current_progress) := by
  unfold ProgressTracker.call
  dsimp only
  split <;> rfl

/-- Accumulation over a whole callback sequence. -/
theorem runCallbacks_bytes (calls : List (ℚ × ℕ)) :
    ∀ s : ProgressTracker,
      (runCallbacks s calls).bytes_transferred
        = s.bytes_transferred + (calls.map Prod.snd).sum := by
  induction calls with
  | nil => intro s; simp [runCallbacks]
  | cons c tl ih =>
    intro s
    have h1 : runCallbacks s (c :: tl) = runCallbacks (s.call c.1 c.2) tl := rfl
    rw [h1, ih, call_bytes]
    simp [Nat.add_assoc]

/-- `total_size` is fixed over a whole callback sequence. -/
theorem runCallbacks_total (calls : List (ℚ × ℕ)) :
    ∀ s : ProgressTracker, (runCallbacks s calls).total_size = s.total_size := by
  induction calls with
  | nil => intro s; rfl
  | cons c tl ih =>
    intro s
    have h1 : runCallbacks s (c :: tl) = runCallbacks (s.call c.1 c.2) tl := rfl
    rw [h1, ih, call_total]

/-! ## C4 — the accumulator is not clamped -/

/-- C4 counterexample: a tracker with positive `totalSize = 1` receives one
non-negative delta of `2`; the accumulator becomes `2 > 1`, exceeding
`totalSize` — `__call__` adds deltas unconditionally and never clamps. -/
theorem C4_counterexample :
    (runCallbacks (ProgressTracker.init 1 2 0) [(1, 2)]).total_size
      < (runCallbacks (ProgressTracker.init 1 2 0) [(1, 2)]).bytes_transferred := by
  have h1 : runCallbacks (ProgressTracker.init 1 2 0) [(1, 2)]
      = (ProgressTracker.init 1 2 0).call 1 2 := rfl
  rw [h1, call_bytes, call_total]
  norm_num [ProgressTracker.init]

/-- C4 (amended): the accumulator equals the plain sum of the deltas delivered;
in particular it stays within `totalSize` exactly when the deltas sum to at
most `totalSize` (which the upload bridge contract, not the sampler, has to
guarantee). -/
theorem tracker_accumulates_sum (total : ℕ) (interval start : ℚ)
    (calls : List (ℚ × ℕ)) :
    (runCallbacks (ProgressTracker.init total interval start) calls).bytes_transferred
        = (calls.map Prod.snd).sum
    ∧ ((calls.map Prod.snd).sum ≤ total →
        (runCallbacks (ProgressTracker.init total interval start) calls).bytes_transferred
          ≤ total) := by
  have h := runCallbacks_bytes calls (ProgressTracker.init total interval start)
  simp only [ProgressTracker.init, Nat.zero_add] at h
  exact ⟨h, fun hle => h ▸ hle⟩

/-- C4 witness: the amended statement at a concrete in-budget call sequence. -/
theorem tracker_accumulates_sum_witness :
    (runCallbacks (ProgressTracker.init 10 2 0) [(1, 3), (2, 4)]).bytes_transferred
      ≤ 10 :=
  (tracker_accumulates_sum 10 2 0 [(1, 3), (2, 4)]).2 (by decide)

/-! ## Formatting value lemmas (shared by C5, C6) -/

/-- `f"{100.0:.1f}"` is `"100.0"`. -/
theorem formatFixed1_hundred : formatFixed1 100 = "100.0" := by
  have hq : (100 : ℚ) * 10 = ((1000 : ℤ) : ℚ) := by norm_num
  have hf : ⌊((1000 : ℤ) : ℚ)⌋ = 1000 := Int.floor_intCast 1000
  have hr : roundHalfEven ((100 : ℚ) * 10) = 1000 := by
    unfold roundHalfEven
    rw [hq, hf]
    rw [if_pos (by push_cast; norm_num)]
  unfold formatFixed1
  rw [hr]
  decide

/-- `_format_time(0)` is `"00:00"`. -/
theorem formatTime_zero : formatTime 0 = "00:00" := by
  unfold formatTime
  rw [if_neg (lt_irrefl 0)]
  have h1 : ((0 : ℚ) / 60) = 0 := zero_div 60
  rw [h1, Int.floor_zero]
  decide

/-! ## C5 — final snapshot reports 100.0% -/

/-- C5: for every positive `totalSize` and every callback sequence whose deltas
sum to exactly `totalSize`, the tracker's final stored status exists and its
percentage text is exactly `"100.0"`: the last callback makes
`bytes_transferred >= total_size` hold, which forces a render at percentage
`(total/total)*100 = 100`. -/
theorem tracker_final_snapshot_is_100 (total : ℕ) (interval start : ℚ)
    (calls : List (ℚ × ℕ)) (htot : 0 < total)
    (hsum : (calls.map Prod.snd).sum = total) :
    ∃ r, (runCallbacks (ProgressTracker.init total interval start) calls).current_progress
          = some r
      ∧ r.percent = "100.0" := by
  rcases List.eq_nil_or_concat calls with hnil | ⟨L, c, hc⟩
  · subst hnil
    simp at hsum
    omega
  · subst hc
    have hrc : runCallbacks (ProgressTracker.init total interval start) (L.concat c)
        = (runCallbacks (ProgressTracker.init total interval start) L).call c.1 c.2 := by
      simp [runCallbacks, List.concat_eq_append, List.foldl_append]
    have hb : (runCallbacks (ProgressTracker.init total interval start) L).bytes_transferred
        = (L.map Prod.snd).sum := by
      rw [runCallbacks_bytes]
      simp [ProgressTracker.init]
    have htl : (runCallbacks (ProgressTracker.init total interval start) L).total_size
        = total := by
      rw [runCallbacks_total]
      rfl
    have hsum' : (runCallbacks (ProgressTracker.init total interval start) L).bytes_transferred
        + c.2 = total := by
      rw [hb]
      simpa [List.concat_eq_append] using hsum
    have hcond : (runCallbacks (ProgressTracker.init total interval start) L).update_interval
          < c.1 - (runCallbacks (ProgressTracker.init total interval start) L).last_update_time
        ∨ (runCallbacks (ProgressTracker.init total interval start) L).total_size
          ≤ (runCallbacks (ProgressTracker.init total interval start) L).bytes_transferred
            + c.2 := Or.inr (by rw [htl, hsum'])
    have hspec := call_spec (runCallbacks (ProgressTracker.init total interval start) L)
      c.1 c.2
    rw [if_pos hcond] at hspec
    have hcur := congrArg Prod.snd hspec
    simp only at hcur
    rw [hrc]
    refine ⟨_, hcur, ?_⟩
    rw [htl, hsum']
    show formatFixed1 (((total : ℚ) / (total : ℚ)) * 100) = "100.0"
    have : ((total : ℚ) / (total : ℚ)) = 1 :=
      div_self (Nat.cast_ne_zero.mpr htot.ne')
    rw [this, one_mul]
    exact formatFixed1_hundred

/-- C5 witness: a 10-byte transfer delivered as deltas 4 and 6. -/
theorem tracker_final_snapshot_is_100_witness :
    ∃ r, (runCallbacks (ProgressTracker.init 10 1 0) [(1, 4), (2, 6)]).current_progress
          = some r
      ∧ r.percent = "100.0" :=
  tracker_final_snapshot_is_100 10 1 0 [(1, 4), (2, 6)] (by norm_num) (by decide)

/-! ## C7 — the sampling condition is strict -/

/-- C7 counterexample: tracker with interval 2; a first callback at `t = 5`
renders (5 - 0 > 2), a second at `t = 7` arrives exactly one interval after the
last sample (7 - 5 = 2) with the transfer incomplete — and does NOT render: the
stored status and `last_update_time` are unchanged, because the code compares
with strict `>`, not the claimed `>=`. -/
theorem C7_counterexample :
    ((7 : ℚ) - 5 = 2)
    ∧ (((ProgressTracker.init 100 2 0).call 5 1).call 7 1).last_update_time = 5
    ∧ (((ProgressTracker.init 100 2 0).call 5 1).call 7 1).current_progress
        = ((ProgressTracker.init 100 2 0).call 5 1).current_progress
    ∧ (((ProgressTracker.init 100 2 0).call 5 1).current_progress).isSome := by
  have h1 : (ProgressTracker.init 100 2 0).call 5 1 =
      { total_size := 100, update_interval := 2, bytes_transferred := 1,
        last_update_time := 5, start_time := 0,
        current_progress := some (uploadRender 100 1 5 0) } := by
    unfold ProgressTracker.call ProgressTracker.init
    dsimp only
    rw [if_pos (Or.inl (by norm_num))]
  have h2 : (((ProgressTracker.init 100 2 0).call 5 1).call 7 1) =
      { total_size := 100, update_interval := 2, bytes_transferred := 2,
        last_update_time := 5, start_time := 0,
        current_progress := some (uploadRender 100 1 5 0) } := by
    rw [h1]
    unfold ProgressTracker.call
    dsimp only
    rw [if_neg (by push_neg; constructor <;> norm_num)]
  refine ⟨by norm_num, ?_, ?_, ?_⟩
  · rw [h2]
  · rw [h2, h1]
  · rw [h1]
    rfl

/-- C7 (amended): a callback renders and stores a new status, moving
`lastSampleTime` to `now`, exactly when `now - lastSampleTime > interval`
(strictly — the boundary case `now - lastSampleTime == interval` does not
render) or the accumulated bytes reach `totalSize`; otherwise both the stored
status and `lastSampleTime` are unchanged. -/
theorem render_condition_is_strict (s : ProgressTracker) (now : ℚ) (d : ℕ) :
    ((s.call now d).last_update_time, (s.call now d).current_progress) =
      if s.update_interval < now - s.last_update_time
          ∨ s.total_size ≤ s.bytes_transferred + d
      then (now, some (uploadRender s.total_size (s.bytes_transferred + d) now
              s.start_time))
      else (s.last_update_time, s.current_progress) :=
  call_spec s now d

/-! ## C6 — ETA rendering on the two legs -/

/-- C6 counterexample: at `transferred = 0` with positive elapsed time the
speed is zero, so the claim requires the placeholder on both legs.  The upload
leg does render `"--:--"`, but the download leg sets `eta_seconds = 0` when the
speed is not positive and therefore renders `"00:00"` — the two legs diverge
and the download leg violates the claimed rule. -/
theorem C6_counterexample :
    ((DownloadProgress.update
        { total_size := 100, downloaded := 0, start_time := 0, last_update := 0,
          published := none } 3 0 100).published).map Rendered.eta = some "00:00"
    ∧ (uploadRender 100 0 3 0).eta = "--:--"
    ∧ ("00:00" : String) ≠ "--:--" := by
  refine ⟨?_, ?_, by decide⟩
  · unfold DownloadProgress.update
    dsimp only
    rw [if_pos (by norm_num)]
    unfold downloadRender
    dsimp only
    rw [if_pos (by norm_num : (0 : ℚ) < 3 - 0)]
    have hs : ((0 : ℕ) : ℚ) / ((3 : ℚ) - 0) = 0 := by norm_num
    rw [hs, if_neg (lt_irrefl 0)]
    simp [formatTime_zero]
  · unfold uploadRender
    dsimp only
    rw [if_pos (by norm_num : (0 : ℚ) < 3 - 0)]
    rw [if_neg (lt_irrefl 0)]

/-- C6 (amended): the upload leg follows the claimed rule — the rendered ETA is
`(totalSize - transferred) / speed` (with `speed = transferred / elapsed`)
exactly when `transferred > 0` and `elapsed > 0` (equivalently `speed > 0`),
and the placeholder `"--:--"` otherwise.  The download leg diverges: whenever
`elapsed > 0` and the byte count is zero (speed zero), it renders `"00:00"`
instead of the placeholder. -/
theorem eta_rule_diverges_between_legs (total bytes : ℕ) (now start : ℚ) :
    ((uploadRender total bytes now start).eta =
        if 0 < bytes ∧ 0 < now - start
        then formatTime (((total : ℚ) - (bytes : ℚ)) / ((bytes : ℚ) / (now - start)))
        else "--:--")
    ∧ (0 < now - start → (downloadRender total 0 now start).eta = "00:00") := by
  constructor
  · unfold uploadRender
    dsimp only
    by_cases he : (0 : ℚ) < now - start
    · rw [if_pos he]
      by_cases hb : 0 < bytes
      · rw [if_pos hb, if_pos ⟨hb, he⟩]
      · rw [if_neg hb, if_neg (fun hc => hb hc.1)]
    · rw [if_neg he, if_neg (fun hc => he hc.2)]
  · intro he
    unfold downloadRender
    dsimp only
    rw [if_pos he]
    have hs : ((0 : ℕ) : ℚ) / (now - start) = 0 := by
      rw [Nat.cast_zero, zero_div]
    rw [hs, if_neg (lt_irrefl 0)]
    exact formatTime_zero

/-- C6 witness: the download-leg divergence at elapsed time 3. -/
theorem eta_rule_diverges_between_legs_witness :
    (downloadRender 100 0 3 0).eta = "00:00" :=
  (eta_rule_diverges_between_legs 100 0 3 0).2 (by norm_num)

end Wasabi
